import Mathlib

/-!
Shallow embedding of the core of `src/app.py` (transcription/translation
pipeline): the Whisper-model cache `carregar_modelo_whisper`, the transcriber
`transcrever_audio`, the two-provider translation fallback `traduzir_texto`,
and the orchestrator `processar_audio`.

External collaborators (the Whisper backend, the two translation providers,
the `langdetect` detector) are parameters of the embedded functions: pure
functions standing for the remote/opaque services. Provider invocations are
made observable through an explicit call log, and the module-level model
cache is threaded as explicit state.
-/

namespace App

/-- Python's `str.strip()`: drop leading and trailing whitespace. Defined on
the character list so that it evaluates by kernel reduction. -/
def strip (s : String) : String :=
  String.mk (((s.data.dropWhile Char.isWhitespace).reverse.dropWhile
    Char.isWhitespace).reverse)

/-- A loaded Whisper model instance (`whisper.load_model` result): opaque,
identified by a tag for the embedding. -/
structure ModelHandle where
  id : Nat
  deriving Repr, DecidableEq

/-- The module-level dict `_modelos_cache`, as an association list from model
name to loaded handle. -/
abbrev Cache := List (String × ModelHandle)

/-- The dict returned by `modelo.transcribe`: the `"text"` entry and the
optional `"language"` entry (`resultado.get("language", ...)`). -/
structure ResultadoTranscricao where
  text : String
  language : Option String
  deriving Repr, DecidableEq

/-- One recorded invocation of a remote translation provider, with the
arguments it was given (`texto`, `source`, `target`). -/
inductive ChamadaProvedor where
  | google (texto origem destino : String)
  | mymemory (texto origem destino : String)
  deriving Repr, DecidableEq

/-- The value of `traduzir_texto`: the returned pair `(texto, servico)`
plus the log of provider calls issued on the way. -/
structure ResultadoTraducao where
  texto : String
  servico : String
  chamadas : List ChamadaProvedor
  deriving Repr, DecidableEq

/-- The spec's `TranslationOutcome.providerUsed` enum. -/
inductive ProviderUsed where
  | none
  | providerA
  | providerB
  | error
  | other
  deriving Repr, DecidableEq

/-- Abstraction from the `servico` strings of `traduzir_texto` to the spec's
`providerUsed` values: both "nenhum" variants mean no provider was used. -/
def providerUsed : String → ProviderUsed
  | "nenhum" => ProviderUsed.none
  | "nenhum (mesma lingua)" => ProviderUsed.none
  | "Google Translate" => ProviderUsed.providerA
  | "MyMemory" => ProviderUsed.providerB
  | "erro" => ProviderUsed.error
  | _ => ProviderUsed.other

/-- `traduzir_texto(texto, idioma_destino, idioma_origem=None)` from
`src/app.py` lines 486-507. `google` and `mymemory` stand for
`GoogleTranslator(source, target).translate(texto)` and
`MyMemoryTranslator(source, target).translate(texto)`; each either returns a
translation or raises (modelled as `Except.error` with the exception
message). `detect` stands for `langdetect.detect`. Python's
`not texto or not texto.strip()` is `texto = "" ∨ strip texto = ""`;
`not idioma_origem` is true for `None` and for the empty string. -/
def traduzir_texto (google mymemory : String → String → String → Except String String)
    (detect : String → String)
    (texto : String) (idioma_destino : String) (idioma_origem : Option String := none) :
    ResultadoTraducao :=
  if texto = "" ∨ strip texto = "" then
    ⟨texto, "nenhum", []⟩
  else
    let origem : String :=
      match idioma_origem with
      | Option.none => detect texto
      | Option.some o => if o = "" then detect texto else o
    if origem = idioma_destino then
      ⟨texto, "nenhum (mesma lingua)", []⟩
    else
      match google origem idioma_destino texto with
      | Except.ok t =>
          ⟨t, "Google Translate", [ChamadaProvedor.google texto origem idioma_destino]⟩
      | Except.error e_google =>
          match mymemory origem idioma_destino texto with
          | Except.ok t =>
              ⟨t, "MyMemory",
                [ChamadaProvedor.google texto origem idioma_destino,
                 ChamadaProvedor.mymemory texto origem idioma_destino]⟩
          | Except.error _ =>
              ⟨"❌ Erro ao traduzir: " ++ e_google, "erro",
                [ChamadaProvedor.google texto origem idioma_destino,
                 ChamadaProvedor.mymemory texto origem idioma_destino]⟩

/-- `carregar_modelo_whisper(modelo)` from `src/app.py` lines 461-467:
if the model name is not in `_modelos_cache`, call `whisper.load_model`
(the `load_model` parameter) and store the handle; return the cached entry.
The value is the returned handle, the updated cache, and the list of
backend load calls performed (empty on a cache hit). -/
def carregar_modelo_whisper (load_model : String → ModelHandle)
    (cache : Cache) (modelo : String) : ModelHandle × Cache × List String :=
  match cache.lookup modelo with
  | Option.some h => (h, cache, [])
  | Option.none =>
      let h := load_model modelo
      (h, (modelo, h) :: cache, [modelo])

/-- The `opcoes` dict passed to `modelo.transcribe`: `fp16=False`,
`verbose=False`, and `language=idioma` exactly when `idioma` is truthy and
not `"auto"` (lines 474-480). -/
structure OpcoesTranscricao where
  fp16 : Bool
  verbose : Bool
  language : Option String
  deriving Repr, DecidableEq

/-- Builds the `opcoes` dict of `transcrever_audio` from the `idioma`
argument (`None` models Python `None`). -/
def opcoesTranscricao (idioma : Option String) : OpcoesTranscricao :=
  ⟨false, false,
    match idioma with
    | Option.none => Option.none
    | Option.some i =>
        if i ≠ "" ∧ i ≠ "auto" then Option.some i else Option.none⟩

/-- The backend call `modelo.transcribe(arquivo_audio, **opcoes)` performed
inside `transcrever_audio`, on the handle obtained from
`carregar_modelo_whisper`. -/
def backendTranscricao (load_model : String → ModelHandle)
    (transcribe : ModelHandle → String → OpcoesTranscricao → ResultadoTranscricao)
    (cache : Cache) (arquivo_audio modelo_nome : String) (idioma : Option String) :
    ResultadoTranscricao :=
  transcribe (carregar_modelo_whisper load_model cache modelo_nome).1
    arquivo_audio (opcoesTranscricao idioma)

/-- `transcrever_audio(arquivo_audio, modelo_nome, idioma=None)` lines
470-483: returns `(resultado["text"].strip(),
resultado.get("language", "desconhecido"))` together with the model cache
after the `carregar_modelo_whisper` call. -/
def transcrever_audio (load_model : String → ModelHandle)
    (transcribe : ModelHandle → String → OpcoesTranscricao → ResultadoTranscricao)
    (cache : Cache) (arquivo_audio modelo_nome : String) (idioma : Option String) :
    (String × String) × Cache :=
  let resultado := backendTranscricao load_model transcribe cache arquivo_audio
    modelo_nome idioma
  ((strip resultado.text, resultado.language.getD "desconhecido"),
   (carregar_modelo_whisper load_model cache modelo_nome).2.1)

/-- `QUALIDADE_PARA_MODELO` (lines 434-440): quality label to Whisper model
name. -/
def QUALIDADE_PARA_MODELO : List (String × String) :=
  [("Muito Rápida", "tiny"), ("Rápida", "base"), ("Balanceada", "small"),
   ("Alta Qualidade", "medium"), ("Máxima Qualidade", "large")]

/-- `IDIOMAS` (lines 443-456): language display name to code. -/
def IDIOMAS : List (String × String) :=
  [("Detecção Automática", "auto"), ("Português", "pt"), ("Inglês", "en"),
   ("Espanhol", "es"), ("Francês", "fr"), ("Alemão", "de"), ("Italiano", "it"),
   ("Japonês", "ja"), ("Coreano", "ko"), ("Chinês (Simplificado)", "zh-CN"),
   ("Russo", "ru"), ("Árabe", "ar")]

/-- `IDIOMAS_DESTINO` (line 458): `IDIOMAS` without the auto-detect entry. -/
def IDIOMAS_DESTINO : List (String × String) :=
  IDIOMAS.filter (fun kv => kv.1 != "Detecção Automática")

/-- `next((k for k, v in IDIOMAS.items() if v == codigo), codigo)` (lines
550/554): best-effort reverse lookup, falling back to the code itself. -/
def nomeIdioma (codigo : String) : String :=
  match IDIOMAS.find? (fun kv => kv.2 == codigo) with
  | Option.some kv => kv.1
  | Option.none => codigo

/-- Lines 528-532 of `processar_audio`:
`codigo_idioma_origem = IDIOMAS.get(idioma_origem)` and
`idioma_transcricao = None if codigo_idioma_origem == "auto" else
codigo_idioma_origem`. -/
def idiomaTranscricao (idioma_origem : String) : Option String :=
  let codigo_idioma_origem := IDIOMAS.lookup idioma_origem
  if codigo_idioma_origem = Option.some "auto" then Option.none
  else codigo_idioma_origem

/-- The triple `(transcricao, traducao, info)` returned by
`processar_audio`, together with the updated model cache and the
provider-call log of the translation step. -/
structure ResultadoPipeline where
  transcricao : String
  traducao : String
  info : String
  cache : Cache
  chamadas : List ChamadaProvedor
  deriving Repr, DecidableEq

/-- `processar_audio(arquivo_audio, qualidade, idioma_origem,
idioma_destino, traduzir)` lines 510-563. A `None` audio argument yields
the fixed message triple; a `KeyError` from the `QUALIDADE_PARA_MODELO` or
`IDIOMAS_DESTINO` lookups is caught by the `except` clause, producing
`"❌ Erro ao processar áudio: " + str(e)` where `str(e)` of a `KeyError` is
the quoted key. Otherwise: transcribe, then translate when requested,
assembling the info string from `nomeIdioma` and the translation service
name. -/
def processar_audio (load_model : String → ModelHandle)
    (transcribe : ModelHandle → String → OpcoesTranscricao → ResultadoTranscricao)
    (google mymemory : String → String → String → Except String String)
    (detect : String → String)
    (cache : Cache) (arquivo_audio : Option String)
    (qualidade idioma_origem idioma_destino : String) (traduzir : Bool) :
    ResultadoPipeline :=
  match arquivo_audio with
  | Option.none => ⟨"❌ Nenhum arquivo foi enviado.", "", "", cache, []⟩
  | Option.some arquivo =>
    match QUALIDADE_PARA_MODELO.lookup qualidade with
    | Option.none =>
        ⟨"❌ Erro ao processar áudio: " ++ "'" ++ qualidade ++ "'", "", "",
          cache, []⟩
    | Option.some modelo_whisper =>
      match IDIOMAS_DESTINO.lookup idioma_destino with
      | Option.none =>
          ⟨"❌ Erro ao processar áudio: " ++ "'" ++ idioma_destino ++ "'", "", "",
            cache, []⟩
      | Option.some codigo_idioma_destino =>
        let r := transcrever_audio load_model transcribe cache arquivo
          modelo_whisper (idiomaTranscricao idioma_origem)
        let texto_transcrito := r.1.1
        let idioma_detectado := r.1.2
        if traduzir then
          let t := traduzir_texto google mymemory detect texto_transcrito
            codigo_idioma_destino (Option.some idioma_detectado)
          let nome_idioma := nomeIdioma idioma_detectado
          ⟨texto_transcrito, t.texto,
            "🌐 Idioma detectado: " ++ nome_idioma ++
              "\n📝 Serviço de tradução: " ++ t.servico,
            r.2, t.chamadas⟩
        else
          ⟨texto_transcrito, "✅ Tradução não solicitada.",
            "🌐 Idioma detectado: " ++ nomeIdioma idioma_detectado, r.2, []⟩

/-- Program counter of one thread executing the body of
`carregar_modelo_whisper`: the membership test `modelo not in
_modelos_cache` (a single atomic dict operation under the interpreter
lock), the slow `whisper.load_model(modelo)` call (not atomic with the
test), the dict store, and the final dict read `_modelos_cache[modelo]`. -/
inductive PcCarregar where
  | verificar
  | carregando
  | gravando
  | retornando
  | terminado
  deriving Repr, DecidableEq

/-- One thread running `carregar_modelo_whisper(modelo)`: its program
counter, the locally held freshly loaded handle, and its eventual return
value. -/
structure ThreadCarregar where
  modelo : String
  pc : PcCarregar
  carregado : Option ModelHandle
  ret : Option ModelHandle
  deriving Repr, DecidableEq

/-- Shared state of two concurrent callers of `carregar_modelo_whisper`:
the shared `_modelos_cache`, both threads, and the ordered log of backend
`whisper.load_model` invocations. -/
structure EstadoConcorrente where
  cache : Cache
  t1 : ThreadCarregar
  t2 : ThreadCarregar
  loads : List String
  deriving Repr, DecidableEq

/-- One atomic step of a single thread of `carregar_modelo_whisper`, given
the shared cache and the number of backend loads performed so far (so each
load is handed a distinct fresh handle by `load_model`). Returns the new
thread state, new cache, and the backend loads this step performed. -/
def passoThread (load_model : String → Nat → ModelHandle) (cache : Cache)
    (nloads : Nat) (t : ThreadCarregar) :
    ThreadCarregar × Cache × List String :=
  match t.pc with
  | PcCarregar.verificar =>
      match cache.lookup t.modelo with
      | Option.some _ =>
          (⟨t.modelo, PcCarregar.retornando, t.carregado, t.ret⟩, cache, [])
      | Option.none =>
          (⟨t.modelo, PcCarregar.carregando, t.carregado, t.ret⟩, cache, [])
  | PcCarregar.carregando =>
      (⟨t.modelo, PcCarregar.gravando, Option.some (load_model t.modelo nloads),
          t.ret⟩, cache, [t.modelo])
  | PcCarregar.gravando =>
      match t.carregado with
      | Option.some h =>
          (⟨t.modelo, PcCarregar.retornando, t.carregado, t.ret⟩,
            (t.modelo, h) :: cache, [])
      | Option.none =>
          (⟨t.modelo, PcCarregar.retornando, t.carregado, t.ret⟩, cache, [])
  | PcCarregar.retornando =>
      (⟨t.modelo, PcCarregar.terminado, t.carregado, cache.lookup t.modelo⟩,
        cache, [])
  | PcCarregar.terminado => (t, cache, [])

/-- One step of the two-thread system: the scheduler bit picks which thread
performs its next atomic action. -/
def passoSistema (load_model : String → Nat → ModelHandle)
    (s : EstadoConcorrente) (escolha : Bool) : EstadoConcorrente :=
  if escolha then
    let r := passoThread load_model s.cache s.loads.length s.t1
    ⟨r.2.1, r.1, s.t2, s.loads ++ r.2.2⟩
  else
    let r := passoThread load_model s.cache s.loads.length s.t2
    ⟨r.2.1, s.t1, r.1, s.loads ++ r.2.2⟩

/-- Run the two-thread system under a given schedule. -/
def executa (load_model : String → Nat → ModelHandle)
    (s : EstadoConcorrente) : List Bool → EstadoConcorrente
  | [] => s
  | escolha :: resto => executa load_model (passoSistema load_model s escolha) resto

/-- Two concurrent callers both requesting the uncached tier "small" on an
empty cache. -/
def estadoInicialSmall : EstadoConcorrente :=
  ⟨[], ⟨"small", PcCarregar.verificar, Option.none, Option.none⟩,
    ⟨"small", PcCarregar.verificar, Option.none, Option.none⟩, []⟩

/-- The racing schedule: both threads pass the `modelo not in _modelos_cache`
test before either stores, then each loads, stores and returns. -/
def cronogramaCorrida : List Bool :=
  [true, false, true, true, true, false, false, false]

end App

namespace App

/-- Branch lemma: non-blank text, concrete source distinct from target,
both providers raise — `traduzir_texto` returns the "erro" outcome built
from the first provider's message. -/
theorem traduzir_texto_caso_erro
    (google mymemory : String → String → String → Except String String)
    (detect : String → String)
    (texto origem destino e_g e_m : String)
    (hblank : ¬ (texto = "" ∨ strip texto = ""))
    (horig : origem ≠ "")
    (hdiff : origem ≠ destino)
    (hg : google origem destino texto = Except.error e_g)
    (hm : mymemory origem destino texto = Except.error e_m) :
    traduzir_texto google mymemory detect texto destino (Option.some origem) =
      ⟨"❌ Erro ao traduzir: " ++ e_g, "erro",
        [ChamadaProvedor.google texto origem destino,
         ChamadaProvedor.mymemory texto origem destino]⟩ := by
  simp only [traduzir_texto, if_neg hblank, if_neg horig, if_neg hdiff, hg, hm]

/-- Branch lemma: non-blank text, concrete source distinct from target,
first provider raises, fallback succeeds — `traduzir_texto` returns the
fallback's translation tagged "MyMemory". -/
theorem traduzir_texto_caso_mymemory
    (google mymemory : String → String → String → Except String String)
    (detect : String → String)
    (texto origem destino e_g t : String)
    (hblank : ¬ (texto = "" ∨ strip texto = ""))
    (horig : origem ≠ "")
    (hdiff : origem ≠ destino)
    (hg : google origem destino texto = Except.error e_g)
    (hm : mymemory origem destino texto = Except.ok t) :
    traduzir_texto google mymemory detect texto destino (Option.some origem) =
      ⟨t, "MyMemory",
        [ChamadaProvedor.google texto origem destino,
         ChamadaProvedor.mymemory texto origem destino]⟩ := by
  simp only [traduzir_texto, if_neg hblank, if_neg horig, if_neg hdiff, hg, hm]

/-- Branch lemma: whenever the two short-circuit guards fail (non-blank
text, concrete source distinct from target), the first provider call issued
is Google Translate with exactly (text, source, target), whatever the
providers return. -/
theorem traduzir_texto_primeira_chamada
    (google mymemory : String → String → String → Except String String)
    (detect : String → String)
    (texto origem destino : String)
    (hblank : ¬ (texto = "" ∨ strip texto = ""))
    (horig : origem ≠ "")
    (hdiff : origem ≠ destino) :
    (traduzir_texto google mymemory detect texto destino
        (Option.some origem)).chamadas.head? =
      Option.some (ChamadaProvedor.google texto origem destino) := by
  simp only [traduzir_texto, if_neg hblank, if_neg horig, if_neg hdiff]
  cases hg : google origem destino texto with
  | ok t => simp
  | error e =>
      cases hm : mymemory origem destino texto with
      | ok t => simp
      | error e2 => simp

/-- Unfolding lemma for `processar_audio` on the translating path: audio
present, both label lookups succeed, `traduzir=True`. -/
theorem processar_audio_traduzir_eq
    (load_model : String → ModelHandle)
    (transcribe : ModelHandle → String → OpcoesTranscricao → ResultadoTranscricao)
    (google mymemory : String → String → String → Except String String)
    (detect : String → String) (cache : Cache)
    (arquivo qualidade idioma_origem idioma_destino modelo_whisper
      codigo_destino : String)
    (hq : QUALIDADE_PARA_MODELO.lookup qualidade = Option.some modelo_whisper)
    (hd : IDIOMAS_DESTINO.lookup idioma_destino = Option.some codigo_destino) :
    processar_audio load_model transcribe google mymemory detect cache
        (Option.some arquivo) qualidade idioma_origem idioma_destino true =
      ⟨(transcrever_audio load_model transcribe cache arquivo modelo_whisper
          (idiomaTranscricao idioma_origem)).1.1,
       (traduzir_texto google mymemory detect
          (transcrever_audio load_model transcribe cache arquivo modelo_whisper
            (idiomaTranscricao idioma_origem)).1.1 codigo_destino
          (Option.some (transcrever_audio load_model transcribe cache arquivo
            modelo_whisper (idiomaTranscricao idioma_origem)).1.2)).texto,
       "🌐 Idioma detectado: " ++
          nomeIdioma (transcrever_audio load_model transcribe cache arquivo
            modelo_whisper (idiomaTranscricao idioma_origem)).1.2 ++
          "\n📝 Serviço de tradução: " ++
          (traduzir_texto google mymemory detect
            (transcrever_audio load_model transcribe cache arquivo modelo_whisper
              (idiomaTranscricao idioma_origem)).1.1 codigo_destino
            (Option.some (transcrever_audio load_model transcribe cache arquivo
              modelo_whisper (idiomaTranscricao idioma_origem)).1.2)).servico,
       (transcrever_audio load_model transcribe cache arquivo modelo_whisper
          (idiomaTranscricao idioma_origem)).2,
       (traduzir_texto google mymemory detect
          (transcrever_audio load_model transcribe cache arquivo modelo_whisper
            (idiomaTranscricao idioma_origem)).1.1 codigo_destino
          (Option.some (transcrever_audio load_model transcribe cache arquivo
            modelo_whisper (idiomaTranscricao idioma_origem)).1.2)).chamadas⟩ := by
  simp only [processar_audio, hq, hd, if_true]

/-- C1: if the text is non-blank, the source is a concrete code different
from the target, and both Google Translate and MyMemory raise, then
`traduzir_texto` returns the error outcome (`servico = "erro"`, i.e.
providerUsed = error) whose diagnostic message is built from the FIRST
provider's exception message `e_g`, not the fallback's. -/
theorem traduzir_both_fail_keeps_google_error
    (google mymemory : String → String → String → Except String String)
    (detect : String → String)
    (texto origem destino e_g e_m : String)
    (hblank : ¬ (texto = "" ∨ strip texto = ""))
    (horig : origem ≠ "")
    (hdiff : origem ≠ destino)
    (hg : google origem destino texto = Except.error e_g)
    (hm : mymemory origem destino texto = Except.error e_m) :
    traduzir_texto google mymemory detect texto destino (Option.some origem) =
      ⟨"❌ Erro ao traduzir: " ++ e_g, "erro",
        [ChamadaProvedor.google texto origem destino,
         ChamadaProvedor.mymemory texto origem destino]⟩ ∧
    providerUsed (traduzir_texto google mymemory detect texto destino
        (Option.some origem)).servico = ProviderUsed.error := by
  constructor <;>
    (simp only [traduzir_texto, if_neg hblank, if_neg horig, if_neg hdiff, hg, hm]) <;>
    rfl

/-- Witness for C1 at a concrete input: text "ola", source "pt",
target "en", both providers failing. -/
theorem traduzir_both_fail_keeps_google_error_witness :
    traduzir_texto (fun _ _ _ => Except.error "falha google")
        (fun _ _ _ => Except.error "falha mymemory")
        (fun _ => "pt") "ola" "en" (Option.some "pt") =
      ⟨"❌ Erro ao traduzir: falha google", "erro",
        [ChamadaProvedor.google "ola" "pt" "en",
         ChamadaProvedor.mymemory "ola" "pt" "en"]⟩ :=
  (traduzir_both_fail_keeps_google_error
    (fun _ _ _ => Except.error "falha google")
    (fun _ _ _ => Except.error "falha mymemory")
    (fun _ => "pt") "ola" "pt" "en" "falha google" "falha mymemory"
    (by decide) (by decide) (by decide) rfl rfl).1

/-- C3: if the text is non-blank, the source is a concrete code different
from the target, Google Translate raises and MyMemory succeeds with `t`,
`traduzir_texto` returns MyMemory's translation with
`servico = "MyMemory"` (providerUsed = providerB), having called both
providers with the same (text, source, target). -/
theorem traduzir_fallback_uses_mymemory
    (google mymemory : String → String → String → Except String String)
    (detect : String → String)
    (texto origem destino e_g t : String)
    (hblank : ¬ (texto = "" ∨ strip texto = ""))
    (horig : origem ≠ "")
    (hdiff : origem ≠ destino)
    (hg : google origem destino texto = Except.error e_g)
    (hm : mymemory origem destino texto = Except.ok t) :
    traduzir_texto google mymemory detect texto destino (Option.some origem) =
      ⟨t, "MyMemory",
        [ChamadaProvedor.google texto origem destino,
         ChamadaProvedor.mymemory texto origem destino]⟩ ∧
    providerUsed (traduzir_texto google mymemory detect texto destino
        (Option.some origem)).servico = ProviderUsed.providerB := by
  constructor <;>
    (simp only [traduzir_texto, if_neg hblank, if_neg horig, if_neg hdiff, hg, hm]) <;>
    rfl

/-- Witness for C3 at a concrete input. -/
theorem traduzir_fallback_uses_mymemory_witness :
    traduzir_texto (fun _ _ _ => Except.error "falha google")
        (fun _ _ _ => Except.ok "hello")
        (fun _ => "pt") "ola" "en" (Option.some "pt") =
      ⟨"hello", "MyMemory",
        [ChamadaProvedor.google "ola" "pt" "en",
         ChamadaProvedor.mymemory "ola" "pt" "en"]⟩ :=
  (traduzir_fallback_uses_mymemory
    (fun _ _ _ => Except.error "falha google")
    (fun _ _ _ => Except.ok "hello")
    (fun _ => "pt") "ola" "pt" "en" "falha google" "hello"
    (by decide) (by decide) (by decide) rfl rfl).1

/-- C4: for non-blank text and a concrete source equal to the target,
`traduzir_texto` returns the input text unchanged with
`servico = "nenhum (mesma lingua)"` (providerUsed = none) and an empty
provider-call log: no provider is invoked, whatever the providers are. -/
theorem traduzir_same_language_short_circuit
    (google mymemory : String → String → String → Except String String)
    (detect : String → String)
    (texto destino : String)
    (hblank : ¬ (texto = "" ∨ strip texto = ""))
    (hdest : destino ≠ "") :
    traduzir_texto google mymemory detect texto destino (Option.some destino) =
      ⟨texto, "nenhum (mesma lingua)", []⟩ ∧
    providerUsed (traduzir_texto google mymemory detect texto destino
        (Option.some destino)).servico = ProviderUsed.none := by
  constructor <;>
    (simp only [traduzir_texto, if_neg hblank, if_neg hdest, if_pos rfl]) <;>
    rfl

/-- Witness for C4 at a concrete input. -/
theorem traduzir_same_language_short_circuit_witness :
    traduzir_texto (fun _ _ _ => Except.error "never called")
        (fun _ _ _ => Except.error "never called")
        (fun _ => "en") "hello" "en" (Option.some "en") =
      ⟨"hello", "nenhum (mesma lingua)", []⟩ :=
  (traduzir_same_language_short_circuit
    (fun _ _ _ => Except.error "never called")
    (fun _ _ _ => Except.error "never called")
    (fun _ => "en") "hello" "en" (by decide) (by decide)).1

/-- C5: for empty or all-whitespace text, `traduzir_texto` returns the input
text unchanged with `servico = "nenhum"` (providerUsed = none) and an empty
call log — no provider is ever invoked, for every source/target pair and
every choice of providers. -/
theorem traduzir_blank_short_circuit
    (google mymemory : String → String → String → Except String String)
    (detect : String → String)
    (texto destino : String) (origem : Option String)
    (hblank : texto = "" ∨ strip texto = "") :
    traduzir_texto google mymemory detect texto destino origem =
      ⟨texto, "nenhum", []⟩ ∧
    providerUsed (traduzir_texto google mymemory detect texto destino
        origem).servico = ProviderUsed.none := by
  constructor <;> (simp only [traduzir_texto, if_pos hblank]) <;> rfl

/-- Witness for C5 at a concrete whitespace-only input. -/
theorem traduzir_blank_short_circuit_witness :
    traduzir_texto (fun _ _ _ => Except.error "never called")
        (fun _ _ _ => Except.error "never called")
        (fun _ => "pt") "   " "en" (Option.some "pt") =
      ⟨"   ", "nenhum", []⟩ :=
  (traduzir_blank_short_circuit
    (fun _ _ _ => Except.error "never called")
    (fun _ _ _ => Except.error "never called")
    (fun _ => "pt") "   " "en" (Option.some "pt") (by decide)).1

/-- C2 counterexample: with a backend whose recognized output is the single
space " ", `transcrever_audio` returns "" for the text field — the result
does NOT equal the backend's output text exactly, because the source applies
`.strip()`. -/
theorem transcrever_whitespace_not_identity :
    (transcrever_audio (fun _ => ⟨0⟩) (fun _ _ _ => ⟨" ", Option.some "en"⟩)
        [] "audio.mp3" "small" Option.none).1.1 ≠ " " := by
  decide

/-- C2 amended: empty or whitespace-only recognized output is valid (the
function returns normally, no error value exists); the text field is the
backend's output with leading/trailing whitespace stripped, hence the empty
string whenever the backend output was empty or all-whitespace. -/
theorem transcrever_blank_output_valid
    (load_model : String → ModelHandle)
    (transcribe : ModelHandle → String → OpcoesTranscricao → ResultadoTranscricao)
    (cache : Cache) (arquivo_audio modelo_nome : String) (idioma : Option String)
    (hblank : strip (backendTranscricao load_model transcribe cache arquivo_audio
        modelo_nome idioma).text = "") :
    (transcrever_audio load_model transcribe cache arquivo_audio modelo_nome
        idioma).1.1 = strip (backendTranscricao load_model transcribe cache
        arquivo_audio modelo_nome idioma).text ∧
    (transcrever_audio load_model transcribe cache arquivo_audio modelo_nome
        idioma).1.1 = "" :=
  ⟨rfl, hblank⟩

/-- Witness for the amended C2 at a concrete whitespace-only backend
output. -/
theorem transcrever_blank_output_valid_witness :
    (transcrever_audio (fun _ => ⟨0⟩) (fun _ _ _ => ⟨"  ", Option.some "en"⟩)
        [] "audio.mp3" "small" Option.none).1.1 = "" :=
  (transcrever_blank_output_valid (fun _ => ⟨0⟩)
    (fun _ _ _ => ⟨"  ", Option.some "en"⟩) [] "audio.mp3" "small" Option.none
    (by decide)).2

/-- C6: the `_modelos_cache` discipline of `carregar_modelo_whisper`.
On a miss, exactly one backend load happens and the handle is stored; on a
hit, the cached handle itself is returned with no load and the cache
untouched; and a cached entry is never invalidated or replaced — every
previously cached tier still maps to its original handle afterwards (the
cache is a function from tier to at most one handle). -/
theorem carregar_modelo_cache_unico
    (load_model : String → ModelHandle) (cache : Cache) (modelo : String) :
    (cache.lookup modelo = Option.none →
      carregar_modelo_whisper load_model cache modelo =
        (load_model modelo, (modelo, load_model modelo) :: cache, [modelo])) ∧
    (∀ h : ModelHandle, cache.lookup modelo = Option.some h →
      carregar_modelo_whisper load_model cache modelo = (h, cache, [])) ∧
    (∀ (m : String) (h : ModelHandle), cache.lookup m = Option.some h →
      ((carregar_modelo_whisper load_model cache modelo).2.1).lookup m =
        Option.some h) := by
  refine ⟨?_, ?_, ?_⟩
  · intro hnone
    simp only [carregar_modelo_whisper, hnone]
  · intro h hsome
    simp only [carregar_modelo_whisper, hsome]
  · intro m h hm
    cases hcm : cache.lookup modelo with
    | some h2 => simpa only [carregar_modelo_whisper, hcm] using hm
    | none =>
        have hne : (m == modelo) = false := by
          apply beq_eq_false_iff_ne.mpr
          intro he
          rw [he, hcm] at hm
          cases hm
        simp only [carregar_modelo_whisper, hcm, List.lookup, hne]
        exact hm

/-- Witness for C6: first call on the empty cache loads and stores; the
second call returns the identical cached handle with no load. -/
theorem carregar_modelo_cache_unico_witness :
    carregar_modelo_whisper (fun _ => ⟨7⟩) [] "small" =
      (⟨7⟩, [("small", ⟨7⟩)], ["small"]) ∧
    carregar_modelo_whisper (fun _ => ⟨7⟩) [("small", ⟨7⟩)] "small" =
      (⟨7⟩, [("small", ⟨7⟩)], []) :=
  ⟨(carregar_modelo_cache_unico (fun _ => ⟨7⟩) [] "small").1 (by decide),
   (carregar_modelo_cache_unico (fun _ => ⟨7⟩) [("small", ⟨7⟩)] "small").2.1
     ⟨7⟩ (by decide)⟩

/-- C7: when translation is requested and both providers fail, the pipeline
does not abort: the transcript field still carries the transcribed text
unchanged, and the translation field (alone) carries the error
diagnostic. -/
theorem pipeline_keeps_transcript_on_translation_error
    (load_model : String → ModelHandle)
    (transcribe : ModelHandle → String → OpcoesTranscricao → ResultadoTranscricao)
    (google mymemory : String → String → String → Except String String)
    (detect : String → String) (cache : Cache)
    (arquivo qualidade idioma_origem idioma_destino modelo_whisper
      codigo_destino texto_t idioma_d e_g e_m : String)
    (hq : QUALIDADE_PARA_MODELO.lookup qualidade = Option.some modelo_whisper)
    (hd : IDIOMAS_DESTINO.lookup idioma_destino = Option.some codigo_destino)
    (ht : (transcrever_audio load_model transcribe cache arquivo modelo_whisper
        (idiomaTranscricao idioma_origem)).1 = (texto_t, idioma_d))
    (hblank : ¬ (texto_t = "" ∨ strip texto_t = ""))
    (hdet : idioma_d ≠ "")
    (hdiff : idioma_d ≠ codigo_destino)
    (hg : google idioma_d codigo_destino texto_t = Except.error e_g)
    (hm : mymemory idioma_d codigo_destino texto_t = Except.error e_m) :
    (processar_audio load_model transcribe google mymemory detect cache
        (Option.some arquivo) qualidade idioma_origem idioma_destino
        true).transcricao = texto_t ∧
    (processar_audio load_model transcribe google mymemory detect cache
        (Option.some arquivo) qualidade idioma_origem idioma_destino
        true).traducao = "❌ Erro ao traduzir: " ++ e_g := by
  have h1 : (transcrever_audio load_model transcribe cache arquivo modelo_whisper
      (idiomaTranscricao idioma_origem)).1.1 = texto_t := by rw [ht]
  have h2 : (transcrever_audio load_model transcribe cache arquivo modelo_whisper
      (idiomaTranscricao idioma_origem)).1.2 = idioma_d := by rw [ht]
  have he := traduzir_texto_caso_erro google mymemory detect texto_t idioma_d
    codigo_destino e_g e_m hblank hdet hdiff hg hm
  rw [processar_audio_traduzir_eq load_model transcribe google mymemory detect
    cache arquivo qualidade idioma_origem idioma_destino modelo_whisper
    codigo_destino hq hd]
  rw [h1, h2, he]
  exact ⟨rfl, rfl⟩

/-- Witness for C7: a French transcript, both providers failing; the
transcript survives and the translation field carries Google's error. -/
theorem pipeline_keeps_transcript_on_translation_error_witness :
    (processar_audio (fun _ => ⟨0⟩) (fun _ _ _ => ⟨"bonjour", Option.some "fr"⟩)
        (fun _ _ _ => Except.error "falha google")
        (fun _ _ _ => Except.error "falha mymemory")
        (fun _ => "fr") [] (Option.some "a.mp3") "Balanceada"
        "Detecção Automática" "Inglês" true).transcricao = "bonjour" ∧
    (processar_audio (fun _ => ⟨0⟩) (fun _ _ _ => ⟨"bonjour", Option.some "fr"⟩)
        (fun _ _ _ => Except.error "falha google")
        (fun _ _ _ => Except.error "falha mymemory")
        (fun _ => "fr") [] (Option.some "a.mp3") "Balanceada"
        "Detecção Automática" "Inglês" true).traducao =
      "❌ Erro ao traduzir: falha google" :=
  pipeline_keeps_transcript_on_translation_error (fun _ => ⟨0⟩)
    (fun _ _ _ => ⟨"bonjour", Option.some "fr"⟩)
    (fun _ _ _ => Except.error "falha google")
    (fun _ _ _ => Except.error "falha mymemory")
    (fun _ => "fr") [] "a.mp3" "Balanceada" "Detecção Automática" "Inglês"
    "small" "en" "bonjour" "fr" "falha google" "falha mymemory"
    (by decide) (by decide) (by decide) (by decide) (by decide) (by decide)
    rfl rfl

/-- C8 counterexample: with audio=None the transcript field of the result is
the human-readable message "❌ Nenhum arquivo foi enviado.", not the empty
string the claim requires — the message lives in the transcript field, while
the info field is empty. -/
theorem pipeline_sem_audio_transcricao_nao_vazia :
    (processar_audio (fun _ => ⟨0⟩) (fun _ _ _ => ⟨"", Option.none⟩)
        (fun _ _ _ => Except.ok "") (fun _ _ _ => Except.ok "") (fun _ => "en")
        [] Option.none "Balanceada" "Detecção Automática" "Inglês"
        true).transcricao ≠ "" := by
  decide

/-- C8 amended: with audio=None, `processar_audio` returns (for every
backend, configuration and cache) the fixed result whose transcript field is
the human-readable missing-input message, whose translation and info fields
are empty, with the cache untouched, no provider called, and no exception
escaping (the function is total and returns this result object). -/
theorem pipeline_sem_audio_retorna_mensagem
    (load_model : String → ModelHandle)
    (transcribe : ModelHandle → String → OpcoesTranscricao → ResultadoTranscricao)
    (google mymemory : String → String → String → Except String String)
    (detect : String → String) (cache : Cache)
    (qualidade idioma_origem idioma_destino : String) (traduzir : Bool) :
    processar_audio load_model transcribe google mymemory detect cache
        Option.none qualidade idioma_origem idioma_destino traduzir =
      ⟨"❌ Nenhum arquivo foi enviado.", "", "", cache, []⟩ :=
  rfl

/-- C9: the racing interleaving of two concurrent `carregar_modelo_whisper`
callers for the same uncached tier "small". Both threads pass the
`modelo not in _modelos_cache` membership test before either stores, so the
backend `whisper.load_model` runs twice (the load log has two entries) and
the two callers end up with different handles — against the
at-most-one-load-in-flight requirement; the source has no lock
serializing the check-then-load-then-store sequence. -/
theorem carregar_concorrente_dois_loads :
    (executa (fun _ n => ⟨n⟩) estadoInicialSmall cronogramaCorrida).loads =
      ["small", "small"] ∧
    (executa (fun _ n => ⟨n⟩) estadoInicialSmall cronogramaCorrida).t1.ret =
      Option.some ⟨0⟩ ∧
    (executa (fun _ n => ⟨n⟩) estadoInicialSmall cronogramaCorrida).t2.ret =
      Option.some ⟨1⟩ := by
  refine ⟨?_, ?_, ?_⟩ <;> decide

/-- C10: when the backend result carries no "language" entry, the
transcriber returns the sentinel "desconhecido"; the sentinel is not a code
of the IDIOMAS table so the label lookup falls back to the sentinel itself,
and when translation is requested the first provider call receives
"desconhecido" as the source language. -/
theorem pipeline_idioma_desconhecido
    (load_model : String → ModelHandle)
    (transcribe : ModelHandle → String → OpcoesTranscricao → ResultadoTranscricao)
    (google mymemory : String → String → String → Except String String)
    (detect : String → String) (cache : Cache)
    (arquivo qualidade idioma_origem idioma_destino modelo_whisper
      codigo_destino texto_t : String)
    (hq : QUALIDADE_PARA_MODELO.lookup qualidade = Option.some modelo_whisper)
    (hd : IDIOMAS_DESTINO.lookup idioma_destino = Option.some codigo_destino)
    (hlang : (backendTranscricao load_model transcribe cache arquivo
        modelo_whisper (idiomaTranscricao idioma_origem)).language = Option.none)
    (htext : strip (backendTranscricao load_model transcribe cache arquivo
        modelo_whisper (idiomaTranscricao idioma_origem)).text = texto_t)
    (hblank : ¬ (texto_t = "" ∨ strip texto_t = ""))
    (hdiff : ("desconhecido" : String) ≠ codigo_destino) :
    (transcrever_audio load_model transcribe cache arquivo modelo_whisper
        (idiomaTranscricao idioma_origem)).1.2 = "desconhecido" ∧
    nomeIdioma "desconhecido" = "desconhecido" ∧
    (processar_audio load_model transcribe google mymemory detect cache
        (Option.some arquivo) qualidade idioma_origem idioma_destino
        true).chamadas.head? =
      Option.some (ChamadaProvedor.google texto_t "desconhecido"
        codigo_destino) := by
  have h2 : (transcrever_audio load_model transcribe cache arquivo
      modelo_whisper (idiomaTranscricao idioma_origem)).1.2 = "desconhecido" := by
    show (backendTranscricao load_model transcribe cache arquivo modelo_whisper
        (idiomaTranscricao idioma_origem)).language.getD "desconhecido" =
      "desconhecido"
    rw [hlang]
    rfl
  have h1 : (transcrever_audio load_model transcribe cache arquivo
      modelo_whisper (idiomaTranscricao idioma_origem)).1.1 = texto_t := htext
  refine ⟨h2, by decide, ?_⟩
  rw [processar_audio_traduzir_eq load_model transcribe google mymemory detect
    cache arquivo qualidade idioma_origem idioma_destino modelo_whisper
    codigo_destino hq hd]
  rw [h1, h2]
  exact traduzir_texto_primeira_chamada google mymemory detect texto_t
    "desconhecido" codigo_destino hblank (by decide) hdiff

/-- Witness for C10: backend yields text "hola" and no language entry; the
sentinel "desconhecido" is reported and handed to Google Translate as the
source language. -/
theorem pipeline_idioma_desconhecido_witness :
    (transcrever_audio (fun _ => ⟨0⟩) (fun _ _ _ => ⟨"hola", Option.none⟩)
        [] "a.mp3" "small" (idiomaTranscricao "Detecção Automática")).1.2 =
      "desconhecido" ∧
    nomeIdioma "desconhecido" = "desconhecido" ∧
    (processar_audio (fun _ => ⟨0⟩) (fun _ _ _ => ⟨"hola", Option.none⟩)
        (fun _ _ _ => Except.error "falha google")
        (fun _ _ _ => Except.ok "hello") (fun _ => "es") []
        (Option.some "a.mp3") "Balanceada" "Detecção Automática" "Inglês"
        true).chamadas.head? =
      Option.some (ChamadaProvedor.google "hola" "desconhecido" "en") :=
  pipeline_idioma_desconhecido (fun _ => ⟨0⟩)
    (fun _ _ _ => ⟨"hola", Option.none⟩)
    (fun _ _ _ => Except.error "falha google")
    (fun _ _ _ => Except.ok "hello") (fun _ => "es") [] "a.mp3" "Balanceada"
    "Detecção Automática" "Inglês" "small" "en" "hola"
    (by decide) (by decide) (by decide) (by decide) (by decide) (by decide)

end App
